import Mathlib

/-!
# EDP 360 Evidence Playback — verification of the orientation/projection core

Shallow embedding of `src/script.js` (EDP 360 - Evidence Playback Script).
JavaScript numbers are modelled as exact rationals (`ℚ`); every numeric
literal of the source (`0.3`, `-0.05`, `0.1`, `91`, …) is carried over
verbatim.  DOM reads/writes, logging and the Three.js renderer are outside
the modelled state; only the mutations of the global `state` object (plus
the module-level `touchStartDistance` variable) and the draw calls issued
on the two raw-view canvases are represented.
-/

namespace EDP360

/-- The view mode strings accepted by `handleViewChange`
(`'stitched' | 'front' | 'back' | 'rawview' | 'flatview'`, the five values
of the `viewControlSelect` element). -/
inductive View where
  | stitched
  | front
  | back
  | rawview
  | flatview
  deriving DecidableEq, Repr

/-- The `initialOrientation` record `{ pan, tilt, zoom }` of the global
`state` object. -/
structure Orientation where
  pan : ℚ
  tilt : ℚ
  zoom : ℚ
  deriving DecidableEq, Repr

/-- The orientation-relevant fields of the global `state` object of
`script.js`, plus the module-level `touchStartDistance` variable.
Fields that only reference DOM/Three.js objects or playback bookkeeping
(`video`, `scene`, `camera`, `isPlaying`, `animationFrameId`, …) are not
part of the modelled state. -/
structure EDPState where
  isDragging : Bool
  previousMouseX : ℚ
  previousMouseY : ℚ
  currentView : View
  pan : ℚ
  tilt : ℚ
  zoom : ℚ
  viewLocked : Bool
  rawViewInitialized : Bool            -- source field name: rawViewInitialized
  frontLensOffset : ℚ
  initialOrientation : Orientation
  touchStartDistance : ℚ         -- module-level `let touchStartDistance = 0`
  deriving DecidableEq, Repr

/-- The initial global `state` (lines 6–26 of the source) together with the
module-level `touchStartDistance = 0`. -/
def initState : EDPState :=
  { isDragging := false
    previousMouseX := 0
    previousMouseY := 0
    currentView := View.stitched
    pan := 0
    tilt := 0
    zoom := 75
    viewLocked := false
    rawViewInitialized := false
    frontLensOffset := 91
    initialOrientation := { pan := 0, tilt := 0, zoom := 75 }
    touchStartDistance := 0 }

/-- `setFrontView()`: pan=0, tilt=0, zoom=100. -/
def setFrontView (s : EDPState) : EDPState :=
  { s with pan := 0, tilt := 0, zoom := 100 }

/-- `setBackView()`: pan=180, tilt=0, zoom=100. -/
def setBackView (s : EDPState) : EDPState :=
  { s with pan := 180, tilt := 0, zoom := 100 }

/-- State effect of `handleViewChange(event)` for a chosen view value
(the `event.target.value` string).  The source first assigns
`state.currentView = newView`, then switches: stitched unlocks, front/back/
flatview lock and re-orient via `setFrontView`/`setBackView`, and rawview
clears `rawViewInitialized` and kicks off the raw render loop (the loop
itself is the separate step function `renderRawView` below).  Display
toggling, cursor classes and renderer resizing are DOM-only. -/
def handleViewChange (newView : View) (s : EDPState) : EDPState :=
  let s := { s with currentView := newView }
  match newView with
  | View.stitched => { s with viewLocked := false }
  | View.front    => setFrontView { s with viewLocked := true }
  | View.back     => setBackView { s with viewLocked := true }
  | View.rawview  => { s with rawViewInitialized := false }
  | View.flatview => setFrontView { s with viewLocked := true }

/-- `resetView()`: front/flatview re-run `setFrontView`, back re-runs
`setBackView`, everything else restores `initialOrientation`. -/
def resetView (s : EDPState) : EDPState :=
  if s.currentView = View.front ∨ s.currentView = View.flatview then
    setFrontView s
  else if s.currentView = View.back then
    setBackView s
  else
    { s with pan := s.initialOrientation.pan
             tilt := s.initialOrientation.tilt
             zoom := s.initialOrientation.zoom }

/-- `calibrateFrontLens()`: `frontLensOffset = -pan`,
`initialOrientation.pan = 0`, `pan = 0` (in that order; tilt/zoom and the
other `initialOrientation` fields are untouched). -/
def calibrateFrontLens (s : EDPState) : EDPState :=
  { s with frontLensOffset := -s.pan
           initialOrientation := { s.initialOrientation with pan := 0 }
           pan := 0 }

/-- The three editable PTZ fields of the `.ptz-item` inputs. -/
inductive PTZField where
  | pan
  | tilt
  | zoom
  deriving DecidableEq, Repr

/-- The `change` handler installed by `setupPTZInputs` for one field:
pan is clamped to [-180,180], tilt to [-90,90], zoom to [20,120]
(`Math.max(lo, Math.min(hi, value))`).  The parsed numeric input value is
the argument. -/
def ptzInputChange (field : PTZField) (value : ℚ) (s : EDPState) : EDPState :=
  match field with
  | PTZField.pan  => { s with pan := max (-180) (min 180 value) }
  | PTZField.tilt => { s with tilt := max (-90) (min 90 value) }
  | PTZField.zoom => { s with zoom := max 20 (min 120 value) }

/-- `onMouseDown(event)`: ignored when `viewLocked` (the source returns
early); otherwise starts a drag at the event's client position. -/
def onMouseDown (x y : ℚ) (s : EDPState) : EDPState :=
  if s.viewLocked then s
  else { s with isDragging := true, previousMouseX := x, previousMouseY := y }

/-- `onMouseMove(event)`: while dragging,
`pan -= deltaX * 0.3`, `tilt += deltaY * 0.3` then
`tilt = Math.max(-90, Math.min(90, tilt))`, and the previous mouse
position is updated. -/
def onMouseMove (x y : ℚ) (s : EDPState) : EDPState :=
  if s.isDragging then
    let deltaX := x - s.previousMouseX
    let deltaY := y - s.previousMouseY
    { s with pan := s.pan - deltaX * 0.3
             tilt := max (-90) (min 90 (s.tilt + deltaY * 0.3))
             previousMouseX := x
             previousMouseY := y }
  else s

/-- `onMouseUp()`: clears the dragging flag. -/
def onMouseUp (s : EDPState) : EDPState :=
  { s with isDragging := false }

/-- `onMouseWheel(event)`: `delta = event.deltaY * -0.05;
zoom = Math.max(20, Math.min(120, zoom - delta))` — applied with no
`viewLocked` check ("Allow zoom even in locked views"). -/
def onMouseWheel (deltaY : ℚ) (s : EDPState) : EDPState :=
  { s with zoom := max 20 (min 120 (s.zoom - deltaY * (-0.05))) }

/-- The touch-event shapes the handlers branch on: one touch (client
position), two touches (the source computes their distance
`Math.sqrt(dx*dx + dy*dy)`; since a square root of a rational is in
general irrational, the embedding takes that already-computed distance as
the payload — every claim below quantifies over all distances, a superset
of the realizable ones), or any other touch count (no branch fires). -/
inductive TouchEvent where
  | single (x y : ℚ)
  | pinch (distance : ℚ)
  | other
  deriving DecidableEq, Repr

/-- `onTouchStart(event)`: one touch starts a drag (note: with NO
`viewLocked` check, unlike `onMouseDown`); two touches record the
inter-finger distance in `touchStartDistance`. -/
def onTouchStart (e : TouchEvent) (s : EDPState) : EDPState :=
  match e with
  | TouchEvent.single x y =>
      { s with isDragging := true, previousMouseX := x, previousMouseY := y }
  | TouchEvent.pinch d => { s with touchStartDistance := d }
  | TouchEvent.other => s

/-- `onTouchMove(event)`: one touch while dragging applies the same
deltas as `onMouseMove` (again with NO `viewLocked` check); two touches
apply `delta = (touchStartDistance - distance) * 0.1;
zoom = Math.max(20, Math.min(120, zoom + delta))` and update
`touchStartDistance`. -/
def onTouchMove (e : TouchEvent) (s : EDPState) : EDPState :=
  match e with
  | TouchEvent.single x y =>
      if s.isDragging then
        let deltaX := x - s.previousMouseX
        let deltaY := y - s.previousMouseY
        { s with pan := s.pan - deltaX * 0.3
                 tilt := max (-90) (min 90 (s.tilt + deltaY * 0.3))
                 previousMouseX := x
                 previousMouseY := y }
      else s
  | TouchEvent.pinch d =>
      let delta := (s.touchStartDistance - d) * 0.1
      { s with zoom := max 20 (min 120 (s.zoom + delta))
               touchStartDistance := d }
  | TouchEvent.other => s

/-- `onTouchEnd()`: clears the dragging flag. -/
def onTouchEnd (s : EDPState) : EDPState :=
  { s with isDragging := false }

/-- The keys the global `keydown` handler switches on. -/
inductive Key where
  | space
  | arrowLeft
  | arrowRight
  | arrowUp
  | arrowDown
  | keyF
  | keyM
  | keyR
  | keyC
  | keyA
  | keyD
  | keyW
  | keyS
  | plus
  | minus
  deriving DecidableEq, Repr

/-- State effect of the global `keydown` handler on the modelled state.
Space/arrows-left-right/f/m only drive playback, fullscreen or audio and
leave the orientation state untouched.  The handler's tilt keys are
transcribed exactly as written in the source:
ArrowUp and `w` do `tilt = Math.max(-90, tilt + 5)` (a LOWER clamp on an
increasing update), ArrowDown and `s` do `tilt = Math.min(90, tilt - 5)`
(an UPPER clamp on a decreasing update); `a`/`d` move pan by ∓5 with no
clamp; `+`/`-` do `zoom = Math.max(20, zoom - 5)` and
`zoom = Math.min(120, zoom + 5)`. -/
def keydown (k : Key) (s : EDPState) : EDPState :=
  match k with
  | Key.space      => s
  | Key.arrowLeft  => s
  | Key.arrowRight => s
  | Key.arrowUp    => { s with tilt := max (-90) (s.tilt + 5) }
  | Key.arrowDown  => { s with tilt := min 90 (s.tilt - 5) }
  | Key.keyF       => s
  | Key.keyM       => s
  | Key.keyR       => resetView s
  | Key.keyC       => calibrateFrontLens s
  | Key.keyA       => { s with pan := s.pan - 5 }
  | Key.keyD       => { s with pan := s.pan + 5 }
  | Key.keyW       => { s with tilt := max (-90) (s.tilt + 5) }
  | Key.keyS       => { s with tilt := min 90 (s.tilt - 5) }
  | Key.plus       => { s with zoom := max 20 (s.zoom - 5) }
  | Key.minus      => { s with zoom := min 120 (s.zoom + 5) }

/-- JavaScript truncation toward zero, as performed by the `%` operator's
implicit quotient. -/
def jsTrunc (q : ℚ) : ℤ :=
  if 0 ≤ q then ⌊q⌋ else ⌈q⌉

/-- The JavaScript remainder operator `a % b` on (finite, nonzero-divisor)
numbers: `a - b * trunc(a / b)`; the result carries the sign of `a`. -/
def jsMod (a b : ℚ) : ℚ :=
  a - b * (jsTrunc (a / b) : ℚ)

/-- The normalized pan computed by `updateOrientationWidget`:
`((pan % 360) + 360) % 360`. -/
def normalizedPan (pan : ℚ) : ℚ :=
  jsMod (jsMod pan 360 + 360) 360

/-- `updateOrientationWidget()`: computes the compass reading
`normalizedPan` and the arrow rotation `-normalizedPan + 180` from the
state and writes them to the DOM only; the state is returned unchanged
(the function performs no assignment to `state`). -/
def updateOrientationWidget (s : EDPState) : EDPState × ℚ × ℚ :=
  let np := normalizedPan s.pan
  (s, np, -np + 180)

/-- The fields of the `video` element read by the raw view:
`!!video.src`, `readyState >= HAVE_CURRENT_DATA`, `videoWidth`,
`videoHeight`. -/
structure VideoEnv where
  hasSrc : Bool
  ready : Bool
  videoWidth : ℚ
  videoHeight : ℚ
  deriving DecidableEq, Repr

/-- A destination canvas's pixel size. -/
structure CanvasEnv where
  width : ℚ
  height : ℚ
  deriving DecidableEq, Repr

/-- A draw call issued on a raw-view canvas context: the black clearing
`fillRect`, a cropping/scaling `drawImage(video, sx, sy, sw, sh, dx, dy,
dw, dh)`, or the two-line placeholder text drawn by `drawPlaceholder`. -/
inductive DrawOp where
  | fillRect (x y w h : ℚ)
  | drawImage (sx sy sw sh dx dy dw dh : ℚ)
  | placeholder (title subtitle : String)
  deriving DecidableEq, Repr

/-- Result of one iteration of `renderRawView`: the state after the call,
the draw calls issued on the front and back canvases, and whether the
iteration rescheduled itself via `requestAnimationFrame(renderRawView)`. -/
structure RawRenderResult where
  state : EDPState
  frontOps : List DrawOp
  backOps : List DrawOp
  rescheduled : Bool
  deriving DecidableEq, Repr

/-- One iteration of the raw render loop `renderRawView()`.
It first checks `state.currentView !== 'rawview'` and, when the check
fires, returns without drawing and without rescheduling.  Otherwise both
canvases are cleared; if the video has a src and
`readyState >= HAVE_CURRENT_DATA` (the dimensions are NOT consulted), the
letterbox geometry is computed from `halfWidth = videoWidth / 2` and each
half is drawn scaled and centered, with `rawViewInitialized` ending up
true; else placeholders are drawn.  Either way the iteration ends in
`requestAnimationFrame(renderRawView)`.
For degenerate inputs, `ℚ` division by zero yields 0 where the
JavaScript doubles yield ±Infinity/NaN; theorems about the numeric
geometry are therefore only stated at inputs with nonzero dimensions,
where the two semantics agree exactly, and theorems at `videoWidth = 0`
only concern which branch is taken and which kind of draw call is
issued. -/
def renderRawView (env : VideoEnv) (front back : CanvasEnv)
    (s : EDPState) : RawRenderResult :=
  if s.currentView ≠ View.rawview then
    { state := s, frontOps := [], backOps := [], rescheduled := false }
  else
    let clearF := DrawOp.fillRect 0 0 front.width front.height
    let clearB := DrawOp.fillRect 0 0 back.width back.height
    if env.hasSrc && env.ready then
      let halfWidth := env.videoWidth / 2
      let frontScale := min (front.width / halfWidth)
                            (front.height / env.videoHeight)
      let backScale := min (back.width / halfWidth)
                           (back.height / env.videoHeight)
      let frontDrawWidth := halfWidth * frontScale
      let frontDrawHeight := env.videoHeight * frontScale
      let frontX := (front.width - frontDrawWidth) / 2
      let frontY := (front.height - frontDrawHeight) / 2
      let backDrawWidth := halfWidth * backScale
      let backDrawHeight := env.videoHeight * backScale
      let backX := (back.width - backDrawWidth) / 2
      let backY := (back.height - backDrawHeight) / 2
      { state := { s with rawViewInitialized := true }
        frontOps := [clearF,
          DrawOp.drawImage 0 0 halfWidth env.videoHeight
            frontX frontY frontDrawWidth frontDrawHeight]
        backOps := [clearB,
          DrawOp.drawImage halfWidth 0 halfWidth env.videoHeight
            backX backY backDrawWidth backDrawHeight]
        rescheduled := true }
    else
      let subtitle := if env.hasSrc then "Video loading..." else "Load a 360° video"
      { state := s
        frontOps := [clearF, DrawOp.placeholder "Front Lens" subtitle]
        backOps := [clearB, DrawOp.placeholder "Back Lens" subtitle]
        rescheduled := true }

/-- Whether a draw op is a cropping/scaling `drawImage` call. -/
def DrawOp.isDrawImage : DrawOp → Bool
  | DrawOp.drawImage _ _ _ _ _ _ _ _ => true
  | _ => false

/-- Whether a draw op is a `drawPlaceholder` text call. -/
def DrawOp.isPlaceholder : DrawOp → Bool
  | DrawOp.placeholder _ _ => true
  | _ => false

/-- Modelled from the spec (§4.6), for comparison with `renderRawView`:
the letterboxed aspect-preserving fit of one lens half of a `(W, H)`
frame into a `(dw, dh)` destination —
`scale = min(dw / (W/2), dh / H)`; `drawWidth = (W/2) * scale`,
`drawHeight = H * scale`; `x = (dw - drawWidth)/2`,
`y = (dh - drawHeight)/2`.  Returns `(x, y, drawWidth, drawHeight)`. -/
def specLensFit (W H dw dh : ℚ) : ℚ × ℚ × ℚ × ℚ :=
  let scale := min (dw / (W / 2)) (dh / H)
  let drawWidth := (W / 2) * scale
  let drawHeight := H * scale
  ((dw - drawWidth) / 2, (dh - drawHeight) / 2, drawWidth, drawHeight)

/-! ## Helper lemmas about the JavaScript remainder -/

/-- For a nonnegative dividend, `a % 360` lies in `[0, 360)`. -/
lemma jsMod_360_nonneg {a : ℚ} (h : 0 ≤ a) :
    0 ≤ jsMod a 360 ∧ jsMod a 360 < 360 := by
  have hq : (0 : ℚ) ≤ a / 360 := div_nonneg h (by norm_num)
  have hid : a / 360 * 360 = a := div_mul_cancel₀ a (by norm_num)
  rw [jsMod, jsTrunc, if_pos hq]
  have h1 : (⌊a / 360⌋ : ℚ) * 360 ≤ a / 360 * 360 :=
    mul_le_mul_of_nonneg_right (Int.floor_le _) (by norm_num)
  have h2 : a / 360 * 360 < ((⌊a / 360⌋ : ℚ) + 1) * 360 :=
    mul_lt_mul_of_pos_right (Int.lt_floor_add_one _) (by norm_num)
  rw [hid] at h1 h2
  constructor <;> linarith

/-- For a negative dividend, `a % 360` lies in `(-360, 0]`. -/
lemma jsMod_360_neg {a : ℚ} (h : a < 0) :
    -360 < jsMod a 360 ∧ jsMod a 360 ≤ 0 := by
  have hq : ¬ (0 : ℚ) ≤ a / 360 := by
    rw [not_le]
    exact div_neg_of_neg_of_pos h (by norm_num)
  have hid : a / 360 * 360 = a := div_mul_cancel₀ a (by norm_num)
  rw [jsMod, jsTrunc, if_neg hq]
  have h1 : a / 360 * 360 ≤ (⌈a / 360⌉ : ℚ) * 360 :=
    mul_le_mul_of_nonneg_right (Int.le_ceil _) (by norm_num)
  have h2 : (⌈a / 360⌉ : ℚ) * 360 < (a / 360 + 1) * 360 :=
    mul_lt_mul_of_pos_right (Int.ceil_lt_add_one _) (by norm_num)
  rw [hid] at h1
  have h2' : (⌈a / 360⌉ : ℚ) * 360 < a + 360 := by
    calc (⌈a / 360⌉ : ℚ) * 360 < (a / 360 + 1) * 360 := h2
    _ = a / 360 * 360 + 360 := by ring
    _ = a + 360 := by rw [hid]
  constructor <;> linarith

/-! ## Claims -/

/-- C1: the claimed invariant "tilt ∈ [-90,90] after every mutator" is
violated by the keyboard tilt keys: from the in-range tilt 90, ArrowUp
performs `tilt = Math.max(-90, tilt + 5)` — the clamp is on the wrong
side — leaving tilt at 95, outside [-90, 90]. -/
theorem keyboard_tilt_clamp_violation :
    (keydown Key.arrowUp { initState with tilt := 90 }).tilt = 95 ∧
    ¬ (keydown Key.arrowUp { initState with tilt := 90 }).tilt ≤ 90 := by
  norm_num [keydown, initState]

/-- C2: the claimed lock suppression is violated by the touch path:
`onTouchStart`/`onTouchMove` never check `viewLocked`, so with
`viewLocked = true` a single-touch drag of deltaX = 100 still changes pan
from 0 to -30 (while, consistently with the claim's zoom half, a wheel
delta of -100 does change zoom from 75 to 70 under lock). -/
theorem locked_touch_drag_mutates_pan :
    (onTouchMove (TouchEvent.single 100 0)
        (onTouchStart (TouchEvent.single 0 0)
          { initState with viewLocked := true })).pan = -30 ∧
    initState.pan = 0 ∧
    (onMouseWheel (-100) { initState with viewLocked := true }).zoom = 70 := by
  norm_num [onTouchMove, onTouchStart, onMouseWheel, initState]

/-- C3 counterexample: for a 3840×1920 source and an 800×600 destination
the extractor does NOT produce the claimed `drawWidth=800, drawHeight=400,
x=0, y=100`: each lens half is 1920×1920, so the scale is limited by the
destination height, not the width. -/
theorem extractor_example_counterexample :
    (renderRawView ⟨true, true, 3840, 1920⟩ ⟨800, 600⟩ ⟨800, 600⟩
        { initState with currentView := View.rawview }).frontOps ≠
      [DrawOp.fillRect 0 0 800 600,
       DrawOp.drawImage 0 0 1920 1920 0 100 800 400] := by
  norm_num [renderRawView, initState]

/-- C3 (amended): for a 3840×1920 source and 800×600 destinations the
extractor computes, for both lenses, `drawWidth = 600, drawHeight = 600,
x = 100, y = 0` (scale limited by height), exactly the values of the
spec's own formula `scale = min(dw / (W/2), dh / H)` as captured by
`specLensFit`. -/
theorem extractor_example_geometry :
    (renderRawView ⟨true, true, 3840, 1920⟩ ⟨800, 600⟩ ⟨800, 600⟩
        { initState with currentView := View.rawview }).frontOps =
      [DrawOp.fillRect 0 0 800 600,
       DrawOp.drawImage 0 0 1920 1920 100 0 600 600] ∧
    (renderRawView ⟨true, true, 3840, 1920⟩ ⟨800, 600⟩ ⟨800, 600⟩
        { initState with currentView := View.rawview }).backOps =
      [DrawOp.fillRect 0 0 800 600,
       DrawOp.drawImage 1920 0 1920 1920 100 0 600 600] ∧
    specLensFit 3840 1920 800 600 = (100, 0, 600, 600) := by
  norm_num [renderRawView, specLensFit, initState]

/-- C4 counterexample: `calibrateFrontLens` is not idempotent.  Starting
from pan = 30, the first call leaves `frontLensOffset = -30`; the second
call (pan is now 0) overwrites it with `-0 = 0`, so the two states
differ. -/
theorem calibrate_twice_counterexample :
    calibrateFrontLens (calibrateFrontLens { initState with pan := 30 }) ≠
      calibrateFrontLens { initState with pan := 30 } := by
  intro h
  have h2 := congrArg EDPState.frontLensOffset h
  norm_num [calibrateFrontLens, initState] at h2

/-- C4 (amended): a second `calibrateFrontLens` immediately after a first
leaves pan, tilt, zoom and `initialOrientation` as the first call left
them, but resets `frontLensOffset` to 0; the second call is a no-op
exactly when the pan before the first call was already 0. -/
theorem calibrate_twice_behavior (s : EDPState) :
    (calibrateFrontLens (calibrateFrontLens s)).pan =
      (calibrateFrontLens s).pan ∧
    (calibrateFrontLens (calibrateFrontLens s)).tilt =
      (calibrateFrontLens s).tilt ∧
    (calibrateFrontLens (calibrateFrontLens s)).zoom =
      (calibrateFrontLens s).zoom ∧
    (calibrateFrontLens (calibrateFrontLens s)).initialOrientation =
      (calibrateFrontLens s).initialOrientation ∧
    (calibrateFrontLens (calibrateFrontLens s)).frontLensOffset = 0 ∧
    (calibrateFrontLens (calibrateFrontLens s) = calibrateFrontLens s ↔
      s.pan = 0) := by
  simp [calibrateFrontLens, EDPState.mk.injEq, eq_comm, neg_eq_zero]

/-- C5: for every starting pan `p`, `calibrateFrontLens` leaves
`frontLensOffset = -p` and `pan = 0`, and a subsequent
`handleViewChange('stitched')` followed by `resetView()` yields pan = 0
(the calibrated home), not the pre-calibration pan. -/
theorem calibration_roundtrip (s : EDPState) :
    (calibrateFrontLens s).frontLensOffset = -s.pan ∧
    (calibrateFrontLens s).pan = 0 ∧
    (resetView (handleViewChange View.stitched (calibrateFrontLens s))).pan
      = 0 := by
  simp [calibrateFrontLens, handleViewChange, resetView, setFrontView,
    setBackView]

/-- C6 counterexample: invoked with a ready video whose reported width is
0, the extractor does NOT draw a placeholder: the readiness check only
consults `src` and `readyState`, so the crop/scale `drawImage` path is
taken (in JavaScript with non-finite geometry from the division by zero;
no placeholder text is drawn). -/
theorem raw_width_zero_counterexample :
    (renderRawView ⟨true, true, 0, 1080⟩ ⟨800, 600⟩ ⟨800, 600⟩
        { initState with currentView := View.rawview }).frontOps.any
        DrawOp.isDrawImage = true ∧
    (renderRawView ⟨true, true, 0, 1080⟩ ⟨800, 600⟩ ⟨800, 600⟩
        { initState with currentView := View.rawview }).frontOps.all
        (fun op => ! op.isPlaceholder) = true := by
  simp [renderRawView, initState, DrawOp.isDrawImage, DrawOp.isPlaceholder]

/-- C6 (amended): in raw view the placeholder is drawn iff the video has
no src or is not ready — the frame dimensions are never consulted — and
the only stored-state effect of an iteration is the Boolean
`rawViewInitialized` flag, so nothing from the scale division reaches
stored state. -/
theorem raw_placeholder_iff_not_ready (env : VideoEnv) (front back : CanvasEnv)
    (s : EDPState) (hs : s.currentView = View.rawview) :
    ((renderRawView env front back s).frontOps.any DrawOp.isPlaceholder = true ↔
      ¬(env.hasSrc = true ∧ env.ready = true)) ∧
    ((renderRawView env front back s).frontOps.any DrawOp.isDrawImage = true ↔
      (env.hasSrc = true ∧ env.ready = true)) ∧
    (renderRawView env front back s).state =
      (if env.hasSrc && env.ready then { s with rawViewInitialized := true }
       else s) := by
  obtain ⟨hsrc, hready, vw, vh⟩ := env
  rw [renderRawView]
  cases hsrc <;> cases hready <;>
    simp [hs, DrawOp.isPlaceholder, DrawOp.isDrawImage]

/-- Witness for C6 (amended) at a concrete not-ready video. -/
theorem raw_placeholder_iff_not_ready_witness :
    ({ initState with currentView := View.rawview } : EDPState).currentView
      = View.rawview ∧
    ((renderRawView ⟨false, false, 0, 0⟩ ⟨800, 600⟩ ⟨800, 600⟩
        { initState with currentView := View.rawview }).frontOps.any
        DrawOp.isPlaceholder = true ↔
      ¬((false : Bool) = true ∧ (false : Bool) = true)) :=
  ⟨rfl, (raw_placeholder_iff_not_ready ⟨false, false, 0, 0⟩ ⟨800, 600⟩
    ⟨800, 600⟩ { initState with currentView := View.rawview } rfl).1⟩

/-- C7: `normalizedPan = ((pan % 360) + 360) % 360` always lies in
[0, 360), differs from the stored pan by an integer multiple of 360, and
`updateOrientationWidget` returns the state unmutated. -/
theorem normalizedPan_spec (p : ℚ) (s : EDPState) :
    0 ≤ normalizedPan p ∧ normalizedPan p < 360 ∧
    (∃ k : ℤ, normalizedPan p - p = 360 * k) ∧
    (updateOrientationWidget s).1 = s := by
  have key : 0 ≤ normalizedPan p ∧ normalizedPan p < 360 := by
    rw [normalizedPan]
    rcases le_or_lt 0 p with hp | hp
    · have hm := jsMod_360_nonneg hp
      exact jsMod_360_nonneg (by linarith [hm.1])
    · have hm := jsMod_360_neg hp
      exact jsMod_360_nonneg (by linarith [hm.2])
  refine ⟨key.1, key.2, ?_, rfl⟩
  have e1 : jsMod p 360 = p - 360 * (jsTrunc (p / 360) : ℚ) := by
    rw [jsMod]
  have e2 : jsMod (jsMod p 360 + 360) 360 =
      (jsMod p 360 + 360) -
        360 * (jsTrunc ((jsMod p 360 + 360) / 360) : ℚ) := by
    rw [jsMod]
  refine ⟨1 - jsTrunc (p / 360) - jsTrunc ((jsMod p 360 + 360) / 360), ?_⟩
  rw [normalizedPan, e2, e1]
  push_cast
  ring

/-- C8: `handleViewChange('front')` is idempotent, and one application
already yields pan = 0, tilt = 0, zoom = 100, viewLocked = true. -/
theorem setMode_front_idempotent (s : EDPState) :
    handleViewChange View.front (handleViewChange View.front s) =
      handleViewChange View.front s ∧
    (handleViewChange View.front s).pan = 0 ∧
    (handleViewChange View.front s).tilt = 0 ∧
    (handleViewChange View.front s).zoom = 100 ∧
    (handleViewChange View.front s).viewLocked = true := by
  simp [handleViewChange, setFrontView]

/-- C9: after `handleViewChange` switches to any view other than rawview,
the next raw-loop iteration fires its `currentView !== 'rawview'` check:
it issues no draw call on either raw canvas, leaves the state untouched,
and does not reschedule itself. -/
theorem raw_loop_stops_after_mode_change (v : View) (hv : v ≠ View.rawview)
    (env : VideoEnv) (front back : CanvasEnv) (s : EDPState) :
    (renderRawView env front back (handleViewChange v s)).state =
      handleViewChange v s ∧
    (renderRawView env front back (handleViewChange v s)).frontOps = [] ∧
    (renderRawView env front back (handleViewChange v s)).backOps = [] ∧
    (renderRawView env front back (handleViewChange v s)).rescheduled
      = false := by
  have hcv : (handleViewChange v s).currentView = v := by
    cases v <;> simp [handleViewChange, setFrontView, setBackView]
  rw [renderRawView]
  simp [hcv, hv]

/-- Witness for C9 at the concrete transition rawview → front. -/
theorem raw_loop_stops_after_mode_change_witness :
    View.front ≠ View.rawview ∧
    (renderRawView ⟨true, true, 3840, 1920⟩ ⟨800, 600⟩ ⟨800, 600⟩
        (handleViewChange View.front
          { initState with currentView := View.rawview })).rescheduled
      = false :=
  ⟨by decide,
    (raw_loop_stops_after_mode_change View.front (by decide)
      ⟨true, true, 3840, 1920⟩ ⟨800, 600⟩ ⟨800, 600⟩
      { initState with currentView := View.rawview }).2.2.2⟩

/-- C10: the numeric-entry handler clamps pan to [-180, 180], tilt to
[-90, 90] and zoom to [20, 120] for every entered value, while the drag
path (`onMouseMove` while dragging) and the keyboard pan keys store pan
unclamped (`pan - 0.3·deltaX`, `pan ∓ 5`). -/
theorem ptz_entry_clamps_pan (v x y : ℚ) (s : EDPState) :
    (-180 ≤ (ptzInputChange PTZField.pan v s).pan ∧
      (ptzInputChange PTZField.pan v s).pan ≤ 180) ∧
    (-90 ≤ (ptzInputChange PTZField.tilt v s).tilt ∧
      (ptzInputChange PTZField.tilt v s).tilt ≤ 90) ∧
    (20 ≤ (ptzInputChange PTZField.zoom v s).zoom ∧
      (ptzInputChange PTZField.zoom v s).zoom ≤ 120) ∧
    (onMouseMove x y { s with isDragging := true }).pan =
      s.pan - (x - s.previousMouseX) * 0.3 ∧
    (keydown Key.keyA s).pan = s.pan - 5 ∧
    (keydown Key.keyD s).pan = s.pan + 5 := by
  refine ⟨⟨le_max_left _ _, max_le (by norm_num) (min_le_left _ _)⟩,
    ⟨le_max_left _ _, max_le (by norm_num) (min_le_left _ _)⟩,
    ⟨le_max_left _ _, max_le (by norm_num) (min_le_left _ _)⟩,
    ?_, rfl, rfl⟩
  simp [onMouseMove]

end EDP360
